import Mathlib

/-!
Verification of `explorerFontEditor.cpp` (Windhawk mod "Fix w11 Explorer Font").
Shallow embedding: wide strings are lists of UTF-16 code units (`List Nat`),
window handles are modelled by the observable window data, device contexts by
the drawing state the code queries, and the GDI side effects of a hook call by
an explicit event trace.
-/

namespace ExplorerFontEditor

/-- A wide string, as a list of UTF-16 code units. -/
abbrev WStr := List Nat

/-- the sentinel face name `L"None"` (code units of N, o, n, e). -/
def noneSentinel : WStr := [78, 111, 110, 101]

/-- The fields of `LOGFONTW` the mod reads and writes: a representative set of
pass-through attributes plus the 32-WCHAR `lfFaceName` buffer. -/
structure LOGFONTW where
  lfHeight : Int
  lfWidth : Int
  lfWeight : Int
  lfItalic : Bool
  lfCharSet : Nat
  lfFaceName : List Nat
  deriving Repr, DecidableEq

/-- std::memset(dst, 0, nBytes) on a WCHAR buffer: each WCHAR occupies 2
bytes, so a unit is zeroed while at least 2 of the nBytes remain (every call
site passes an even nBytes, so no unit is ever half-zeroed). -/
def memset0W : List Nat → Nat → List Nat
  | [], _ => []
  | c :: rest, nBytes => (if 2 ≤ nBytes then 0 else c) :: memset0W rest (nBytes - 2)

/-- std::memcpy(dst, src, src.size() * sizeof(WCHAR)) on WCHAR buffers:
copies every unit of src over the front of dst. -/
def memcpyW : List Nat → List Nat → List Nat
  | dst, [] => dst
  | [], _ :: _ => []
  | _ :: dst, s :: src => s :: memcpyW dst src

/-- ARRAYSIZE(font->lfFaceName): the ELEMENT count of the 32-WCHAR buffer.
The source passes this value to memset as its BYTE count (line 119). -/
def ARRAYSIZE_lfFaceName : Nat := 32

/-- Result of `change_font_in_struct`: the updated struct plus how many
`Wh_Log` diagnostics were emitted. -/
structure ChangeFontResult where
  font : LOGFONTW
  logCount : Nat
  deriving Repr, DecidableEq

/-- `change_font_in_struct` (lines 110-128): if the configured name differs
from the sentinel and has at most 31 units, memset the face-name buffer with
byte count `ARRAYSIZE(lfFaceName)` and memcpy the name's units in; if it is
too long, log once and change nothing; on the sentinel, change nothing. -/
def change_font_in_struct (s_font_name : WStr) (font : LOGFONTW) : ChangeFontResult :=
  if s_font_name ≠ noneSentinel then
    if s_font_name.length ≤ 31 then
      let face_name := memset0W font.lfFaceName ARRAYSIZE_lfFaceName
      let face_name := memcpyW face_name s_font_name
      ⟨{ font with lfFaceName := face_name }, 0⟩
    else
      ⟨font, 1⟩
  else
    ⟨font, 0⟩

/-- A window, modelled by its class name and the class names of its
GetParent chain (nearest parent first; the chain ends where GetParent
returns null). -/
structure Window where
  className : String
  ancestors : List String
  deriving Repr, DecidableEq

/-- The drawing state of a device context that the mod queries:
GetBkColor, the LOGFONTW of the currently selected font (via
GetCurrentObject + GetObjectW), and WindowFromDC. -/
structure HDC where
  bkColor : Nat
  currentFont : LOGFONTW
  window : Option Window
  deriving Repr, DecidableEq

def GetRValue (c : Nat) : Nat := c % 256

def GetGValue (c : Nat) : Nat := c / 256 % 256

def GetBValue (c : Nat) : Nat := c / 65536 % 256

/-- the RGB macro: composes 0x00BBGGRR from the low byte of each channel. -/
def RGB (r g b : Nat) : Nat := r % 256 + g % 256 * 256 + b % 256 * 65536

/-- `is_light_background` (lines 178-191). -/
def is_light_background (hdc : HDC) : Bool :=
  let bg_color := hdc.bkColor
  let r := GetRValue bg_color
  let g := GetGValue bg_color
  let b := GetBValue bg_color
  let brightness := (r * 299 + g * 587 + b * 114) / 1000
  decide (128 < brightness)

/-- the `for (int i = 0; i < 3; i++)` loop of `is_explorer_file_view`
(lines 214-226): advance along the parent chain at most `fuel` times,
breaking when the chain ends, returning true on a SHELLDLL_DefView match. -/
def shellDefViewScan : Nat → List String → Bool
  | 0, _ => false
  | _ + 1, [] => false
  | n + 1, c :: rest => if c = "SHELLDLL_DefView" then true else shellDefViewScan n rest

/-- `is_explorer_file_view` (lines 194-229). -/
def is_explorer_file_view (hwnd : Option Window) : Bool :=
  match hwnd with
  | none => false
  | some w =>
    if w.className = "DirectUIHWND" ∨ w.className = "SysListView32" then true
    else shellDefViewScan 3 w.ancestors

/-- The settings snapshot held in the `util` globals (lines 83-87). -/
structure Settings where
  s_font_name : WStr
  s_custom_color : Bool
  s_text_r : Int
  s_text_g : Int
  s_text_b : Int
  deriving Repr, DecidableEq

/-- The external settings store consumed through `Wh_GetIntSetting` /
`WindhawkUtils::StringSetting::make`. -/
structure SettingsStore where
  getIntSetting : String → Int
  getStringSetting : String → WStr

/-- `update_settings` (lines 153-159): reloads the globals;
`s_custom_color` is set to the comparison `Wh_GetIntSetting(L"font.customColor") == 1`. -/
def update_settings (store : SettingsStore) : Settings :=
  { s_font_name := store.getStringSetting "font.name"
    s_custom_color := store.getIntSetting "font.customColor" == 1
    s_text_r := store.getIntSetting "font.textR"
    s_text_g := store.getIntSetting "font.textG"
    s_text_b := store.getIntSetting "font.textB" }

/-- `is_custom_color_enabled` (lines 161-163). -/
def is_custom_color_enabled (st : Settings) : Bool := st.s_custom_color

/-- cast `static_cast<uint8_t>(x & 0xff)`: on a two's-complement int,
`x & 0xff` is the nonnegative residue of x modulo 256. -/
def byte_of_int (x : Int) : Nat := (x % 256).toNat

/-- `get_custom_text_color` (lines 165-175): mask each channel to its low
byte, then compose with the RGB macro. -/
def get_custom_text_color (st : Settings) : Nat :=
  let r := byte_of_int st.s_text_r
  let g := byte_of_int st.s_text_g
  let b := byte_of_int st.s_text_b
  RGB r g b

/-- GDI calls a hook body performs, in order. -/
inductive GdiEvent where
  | createFontIndirect (h : Nat)
  | selectObject (h : Nat)
  | setTextColor (c : Nat)
  | callOriginal
  | deleteObject (h : Nat)
  deriving Repr, DecidableEq

def GdiEvent.isCreate : GdiEvent → Bool
  | .createFontIndirect _ => true
  | _ => false

def GdiEvent.isDelete : GdiEvent → Bool
  | .deleteObject _ => true
  | _ => false

/-- Environment of one hook invocation: the device context's state, the
handle CreateFontIndirectW hands back, and the value the original
(delegated) function returns. -/
structure HookEnv where
  hdc : HDC
  newFontHandle : Nat
  originalResult : Int
  deriving Repr, DecidableEq

/-- `hdc_update_font` (lines 130-151): read the current font's LOGFONTW,
rewrite its face name from settings, create and select the new font, and
return the new handle (owned by a `unique_hfont_t`) with the final struct.
The trace records the GDI calls made so far. -/
def hdc_update_font (st : Settings) (env : HookEnv) : Nat × LOGFONTW × List GdiEvent :=
  let font := env.hdc.currentFont
  let font := (change_font_in_struct st.s_font_name font).font
  let h_new_font := env.newFontHandle
  (h_new_font, font,
    [GdiEvent.createFontIndirect h_new_font, GdiEvent.selectObject h_new_font])

/-- `draw_textw_hook` (lines 238-255): update the font, conditionally set
the text color, delegate to the original, and let the `unique_hfont_t`
destructor release the created font when the scope ends. -/
def draw_textw_hook (st : Settings) (env : HookEnv) : Int × List GdiEvent :=
  let (h_new_font, _, ev) := hdc_update_font st env
  let colorEv :=
    if is_custom_color_enabled st && !is_light_background env.hdc
        && is_explorer_file_view env.hdc.window then
      [GdiEvent.setTextColor (get_custom_text_color st)]
    else []
  (env.originalResult,
    ev ++ colorEv ++ [GdiEvent.callOriginal, GdiEvent.deleteObject h_new_font])

/-- `draw_text_exw_hook` (lines 257-275): identical body to
`draw_textw_hook` apart from the delegated signature. -/
def draw_text_exw_hook (st : Settings) (env : HookEnv) : Int × List GdiEvent :=
  let (h_new_font, _, ev) := hdc_update_font st env
  let colorEv :=
    if is_custom_color_enabled st && !is_light_background env.hdc
        && is_explorer_file_view env.hdc.window then
      [GdiEvent.setTextColor (get_custom_text_color st)]
    else []
  (env.originalResult,
    ev ++ colorEv ++ [GdiEvent.callOriginal, GdiEvent.deleteObject h_new_font])

/-- One condition test of the hooks' guard, in source order. -/
inductive GuardCheck where
  | checkEnabled
  | checkBackground
  | checkFileView
  deriving Repr, DecidableEq

/-- Instrumented evaluation of the guard
`is_custom_color_enabled() && !is_light_background(hdc) && is_explorer_file_view(hdc)`
(lines 249-250): nested ifs are the meaning of short-circuit `&&`; the list
records which conditions were evaluated, in order. -/
def color_guard_eval (st : Settings) (env : HookEnv) : Bool × List GuardCheck :=
  if is_custom_color_enabled st then
    if !is_light_background env.hdc then
      (is_explorer_file_view env.hdc.window,
        [GuardCheck.checkEnabled, GuardCheck.checkBackground, GuardCheck.checkFileView])
    else
      (false, [GuardCheck.checkEnabled, GuardCheck.checkBackground])
  else
    (false, [GuardCheck.checkEnabled])

/-- Addresses GetProcAddress resolves for the two targets; `none` models a
null result. -/
structure InitEnv where
  drawTextWAddr : Option Nat
  drawTextExWAddr : Option Nat
  deriving Repr, DecidableEq

/-- A `Wh_SetFunctionHook` registration, recording the target address it
was given (possibly null). -/
inductive InitEvent where
  | setFunctionHook (target : Option Nat)
  deriving Repr, DecidableEq

/-- `Wh_ModInit` (lines 277-296): load settings, resolve both targets, and
register the hooks with whatever addresses came back — the results are
never tested against null — then return TRUE unconditionally. -/
def Wh_ModInit (store : SettingsStore) (env : InitEnv) :
    Bool × Settings × List InitEvent :=
  (true, update_settings store,
    [InitEvent.setFunctionHook env.drawTextWAddr,
     InitEvent.setFunctionHook env.drawTextExWAddr])

/-- Which special member functions the class template `raii` (lines 90-105)
declares: `raii() = delete`, a converting constructor from T, a destructor,
and two `get()` accessors; no copy/move constructor or assignment operator
is declared ("we don't need operator= or raii(raii&&) yet..."). -/
structure CppSpecialMembers where
  defaultCtorDeleted : Bool
  userCopyCtor : Bool
  userMoveCtor : Bool
  userMoveAssign : Bool
  userCopyAssign : Bool
  userDtor : Bool
  deriving Repr, DecidableEq

def raii_members : CppSpecialMembers :=
  { defaultCtorDeleted := true
    userCopyCtor := false
    userMoveCtor := false
    userMoveAssign := false
    userCopyAssign := false
    userDtor := true }

/-- C++ implicit special-member rule applied to such a class: the copy
constructor is available unless the user declared one (it is then whatever
was declared) or declared a move constructor or move assignment operator,
which would define the implicit copy constructor as deleted. A user-declared
destructor makes the implicit copy constructor deprecated, not deleted. -/
def copy_ctor_available (c : CppSpecialMembers) : Bool :=
  c.userCopyCtor || (!c.userMoveCtor && !c.userMoveAssign)

/-- The runtime state of a `raii<HFONT, DeleteObject>` guard. -/
structure Raii where
  m_handle : Nat
  deriving Repr, DecidableEq

/-- `raii(T handle)` (line 94). -/
def raii_mk (h : Nat) : Raii := ⟨h⟩

/-- `get()` (lines 99-101). -/
def raii_get (g : Raii) : Nat := g.m_handle

/-- the destructor `~raii` (line 95): `Fn(m_handle)`, i.e. DeleteObject for
`unique_hfont_t`. -/
def raii_dtor (g : Raii) : GdiEvent := GdiEvent.deleteObject g.m_handle

/-- the implicitly generated copy constructor: member-wise copy. -/
def raii_copy (g : Raii) : Raii := ⟨g.m_handle⟩

/-- A concrete LOGFONTW value used in closed instances. -/
def defaultFont : LOGFONTW := ⟨-12, 0, 400, false, 1, List.replicate 32 0⟩

/-- A LOGFONTW whose face-name buffer holds a 20-character prior name
(20 units of 65, the rest zero). -/
def c1_prior_font : LOGFONTW :=
  ⟨-12, 0, 400, false, 1, List.replicate 20 65 ++ List.replicate 12 0⟩

/-- A settings store returning 0 / the empty string for every key. -/
def zeroStore : SettingsStore := ⟨fun _ => 0, fun _ => []⟩

/-- A settings store whose font.customColor integer is 2. -/
def c10_store : SettingsStore :=
  ⟨fun k => if k = "font.customColor" then 2 else 0, fun _ => []⟩

/-- A concrete hook environment used in closed instances. -/
def defaultEnv : HookEnv := ⟨⟨0, defaultFont, none⟩, 7, 0⟩

end ExplorerFontEditor

namespace ExplorerFontEditor

theorem shellDefViewScan_iff (n : Nat) (l : List String) :
    shellDefViewScan n l = true ↔ "SHELLDLL_DefView" ∈ l.take n := by
  induction n generalizing l with
  | zero => simp [shellDefViewScan]
  | succ n ih =>
    cases l with
    | nil => simp [shellDefViewScan]
    | cons c rest =>
      by_cases hc : c = "SHELLDLL_DefView"
      · simp [shellDefViewScan, hc]
      · simp [shellDefViewScan, hc, ih, eq_comm]

theorem setTextColor_mem_textw_iff (st : Settings) (env : HookEnv) (c : Nat) :
    GdiEvent.setTextColor c ∈ (draw_textw_hook st env).2
      ↔ c = get_custom_text_color st ∧ is_custom_color_enabled st = true
          ∧ is_light_background env.hdc = false
          ∧ is_explorer_file_view env.hdc.window = true := by
  cases h1 : is_custom_color_enabled st <;>
    cases h2 : is_light_background env.hdc <;>
      cases h3 : is_explorer_file_view env.hdc.window <;>
        simp [draw_textw_hook, hdc_update_font, h1, h2, h3]

theorem draw_text_exw_eq_textw : draw_text_exw_hook = draw_textw_hook := rfl

/-- C1: the claim asserts that after `change_font_in_struct` writes an
override name of length ≤ 31, the 32-unit face-name buffer is that name
followed entirely by zeros, with no residual characters. The code passes
`ARRAYSIZE(lfFaceName)` (32, the element count) to memset as its byte
count, so only the first 16 WCHARs are zeroed: writing the 1-character
name 66 over a 20-character prior name leaves the prior name's units at
positions 16-19, refuting the claimed postcondition. -/
theorem memset_bug_leaves_residual_units :
    (change_font_in_struct [66] c1_prior_font).font.lfFaceName
        = [66] ++ List.replicate 15 0 ++ List.replicate 4 65 ++ List.replicate 12 0
  ∧ (change_font_in_struct [66] c1_prior_font).font.lfFaceName
        ≠ [66] ++ List.replicate 31 0 := by decide

/-- C2: in both hooks, for every settings snapshot and every environment
(hence for every guard outcome and every value returned by the original),
the trace holds exactly one CreateFontIndirectW, exactly one DeleteObject,
both on the same handle, and the DeleteObject is the final action of the
call (the guard's destructor at scope end). -/
theorem hook_font_create_release_balance (st : Settings) (env : HookEnv) :
    ((draw_textw_hook st env).2.filter GdiEvent.isCreate
        = [GdiEvent.createFontIndirect env.newFontHandle]
      ∧ (draw_textw_hook st env).2.filter GdiEvent.isDelete
        = [GdiEvent.deleteObject env.newFontHandle]
      ∧ (draw_textw_hook st env).2.getLast?
        = some (GdiEvent.deleteObject env.newFontHandle))
  ∧ ((draw_text_exw_hook st env).2.filter GdiEvent.isCreate
        = [GdiEvent.createFontIndirect env.newFontHandle]
      ∧ (draw_text_exw_hook st env).2.filter GdiEvent.isDelete
        = [GdiEvent.deleteObject env.newFontHandle]
      ∧ (draw_text_exw_hook st env).2.getLast?
        = some (GdiEvent.deleteObject env.newFontHandle)) := by
  constructor <;>
  · cases h1 : is_custom_color_enabled st <;>
      cases h2 : is_light_background env.hdc <;>
        cases h3 : is_explorer_file_view env.hdc.window <;>
          refine ⟨?_, ?_, ?_⟩ <;>
            simp [draw_textw_hook, draw_text_exw_hook, hdc_update_font, h1, h2, h3,
              GdiEvent.isCreate, GdiEvent.isDelete, List.getLast?]

/-- C3: the hooks' guard evaluates enabled → not-light → file-view in that
order, short-circuiting at the first false condition (the instrumented
evaluation records exactly the conditions C++ `&&` evaluates), its value is
the conjunction, and each hook's trace holds a SetTextColor — necessarily
to the configured color — iff all three conditions hold. -/
theorem color_override_guard_semantics (st : Settings) (env : HookEnv) :
    ((color_guard_eval st env).1
        = (is_custom_color_enabled st && !is_light_background env.hdc
            && is_explorer_file_view env.hdc.window))
  ∧ ((color_guard_eval st env).2
      = GuardCheck.checkEnabled ::
          (if is_custom_color_enabled st then
            GuardCheck.checkBackground ::
              (if is_light_background env.hdc then [] else [GuardCheck.checkFileView])
          else []))
  ∧ (∀ c, GdiEvent.setTextColor c ∈ (draw_textw_hook st env).2
      ↔ c = get_custom_text_color st ∧ is_custom_color_enabled st = true
          ∧ is_light_background env.hdc = false
          ∧ is_explorer_file_view env.hdc.window = true)
  ∧ (∀ c, GdiEvent.setTextColor c ∈ (draw_text_exw_hook st env).2
      ↔ c = get_custom_text_color st ∧ is_custom_color_enabled st = true
          ∧ is_light_background env.hdc = false
          ∧ is_explorer_file_view env.hdc.window = true) := by
  refine ⟨?_, ?_, fun c => setTextColor_mem_textw_iff st env c, fun c => ?_⟩
  · cases h1 : is_custom_color_enabled st <;>
      cases h2 : is_light_background env.hdc <;>
        simp [color_guard_eval, h1, h2]
  · cases h1 : is_custom_color_enabled st <;>
      cases h2 : is_light_background env.hdc <;>
        simp [color_guard_eval, h1, h2]
  · rw [draw_text_exw_eq_textw]
    exact setTextColor_mem_textw_iff st env c

/-- C4: `is_explorer_file_view` returns false for a device context with no
window; returns true immediately when the window's class is DirectUIHWND or
SysListView32; and otherwise returns true iff one of the first 3 ancestors
along the GetParent chain has class SHELLDLL_DefView (so a match only at
the 4th level gives false). -/
theorem file_view_classification (w : Window)
    (h1 : w.className ≠ "DirectUIHWND") (h2 : w.className ≠ "SysListView32") :
    is_explorer_file_view none = false
  ∧ (∀ v : Window,
        v.className = "DirectUIHWND" ∨ v.className = "SysListView32" →
        is_explorer_file_view (some v) = true)
  ∧ (is_explorer_file_view (some w) = true
        ↔ "SHELLDLL_DefView" ∈ w.ancestors.take 3) := by
  refine ⟨rfl, fun v hv => ?_, ?_⟩
  · simp [is_explorer_file_view, hv]
  · have hcond : ¬(w.className = "DirectUIHWND" ∨ w.className = "SysListView32") := by
      rintro (h | h)
      · exact h1 h
      · exact h2 h
    simp [is_explorer_file_view, hcond, shellDefViewScan_iff]

theorem file_view_classification_witness :
    is_explorer_file_view (some ⟨"W", ["A", "B", "C", "SHELLDLL_DefView"]⟩) = false := by
  have h := (file_view_classification ⟨"W", ["A", "B", "C", "SHELLDLL_DefView"]⟩
    (by decide) (by decide)).2.2
  cases hb : is_explorer_file_view (some ⟨"W", ["A", "B", "C", "SHELLDLL_DefView"]⟩) with
  | false => rfl
  | true => exact absurd (h.mp hb) (by decide)

/-- C5: `is_light_background` classifies by the integer luminance
(299R + 587G + 114B) / 1000 of the background color with a strict 128
threshold: white is light, black is dark, and (128,128,128) — luminance
exactly 128 — is not light. -/
theorem light_background_classification :
    (∀ hdc : HDC,
        is_light_background hdc = true
          ↔ 128 < (GetRValue hdc.bkColor * 299 + GetGValue hdc.bkColor * 587
              + GetBValue hdc.bkColor * 114) / 1000)
  ∧ is_light_background ⟨RGB 255 255 255, defaultFont, none⟩ = true
  ∧ is_light_background ⟨RGB 0 0 0, defaultFont, none⟩ = false
  ∧ (GetRValue (RGB 128 128 128) * 299 + GetGValue (RGB 128 128 128) * 587
      + GetBValue (RGB 128 128 128) * 114) / 1000 = 128
  ∧ is_light_background ⟨RGB 128 128 128, defaultFont, none⟩ = false := by
  refine ⟨fun hdc => ?_, by decide, by decide, by decide, by decide⟩
  simp [is_light_background]

/-- C6: for every override name longer than 31 units,
`change_font_in_struct` returns the font description unchanged in every
field and emits exactly one diagnostic. -/
theorem long_name_override_skipped (name : WStr) (font : LOGFONTW)
    (h : 31 < name.length) :
    change_font_in_struct name font = ⟨font, 1⟩ := by
  have hne : name ≠ noneSentinel := by
    intro he
    rw [he] at h
    exact absurd h (by decide)
  unfold change_font_in_struct
  rw [if_pos hne, if_neg (by omega)]

theorem long_name_override_skipped_witness :
    change_font_in_struct (List.replicate 32 65) defaultFont = ⟨defaultFont, 1⟩ :=
  long_name_override_skipped (List.replicate 32 65) defaultFont (by decide)

/-- C7: `get_custom_text_color` composes the color from the low 8 bits of
each stored channel only, so reducing every channel modulo 256 leaves the
composed color unchanged; in particular R=300 composes the same color as
R=44. -/
theorem color_channels_mod_256 (st : Settings) :
    (get_custom_text_color st
      = get_custom_text_color
          ⟨st.s_font_name, st.s_custom_color,
            st.s_text_r % 256, st.s_text_g % 256, st.s_text_b % 256⟩)
  ∧ get_custom_text_color ⟨noneSentinel, true, 300, 255, 255⟩
      = get_custom_text_color ⟨noneSentinel, true, 44, 255, 255⟩ := by
  refine ⟨?_, by decide⟩
  have hr := Int.emod_emod_of_dvd st.s_text_r (dvd_refl (256 : Int))
  have hg := Int.emod_emod_of_dvd st.s_text_g (dvd_refl (256 : Int))
  have hb := Int.emod_emod_of_dvd st.s_text_b (dvd_refl (256 : Int))
  simp [get_custom_text_color, byte_of_int, hr, hg, hb]

/-- C8: the claim asserts `raii` cannot be copied. Only its default
constructor is deleted; it declares no copy or move constructor and no
assignment operator, so by the C++ implicit special-member rules its copy
constructor is generated (member-wise), a live guard can be copied, and the
two destructors then release the same handle twice. The handle query via
`get()` does work. -/
theorem raii_copy_ctor_not_deleted :
    copy_ctor_available raii_members = true
  ∧ raii_get (raii_copy (raii_mk 7)) = 7
  ∧ [raii_dtor (raii_copy (raii_mk 7)), raii_dtor (raii_mk 7)]
      = [GdiEvent.deleteObject 7, GdiEvent.deleteObject 7] := by decide

/-- C9: the claim asserts `Wh_ModInit` returns failure when address
resolution yields null. With both GetProcAddress results null the code
still registers both hooks on the null targets and returns TRUE. -/
theorem init_succeeds_despite_null_addresses :
    (Wh_ModInit zeroStore ⟨none, none⟩).1 = true
  ∧ (Wh_ModInit zeroStore ⟨none, none⟩).2.2
      = [InitEvent.setFunctionHook none, InitEvent.setFunctionHook none] :=
  ⟨rfl, rfl⟩

/-- C10: after `update_settings`, the custom-color flag is true iff the
integer stored under font.customColor is exactly 1; for any other stored
value (2, -1, ...) the flag is false and neither hook's trace contains any
SetTextColor call. -/
theorem custom_color_flag_iff_one (store : SettingsStore) (env : HookEnv) :
    (is_custom_color_enabled (update_settings store) = true
      ↔ store.getIntSetting "font.customColor" = 1)
  ∧ (store.getIntSetting "font.customColor" ≠ 1 →
      (∀ c, GdiEvent.setTextColor c ∉ (draw_textw_hook (update_settings store) env).2)
      ∧ (∀ c, GdiEvent.setTextColor c ∉ (draw_text_exw_hook (update_settings store) env).2)) := by
  have hflag : is_custom_color_enabled (update_settings store)
      = (store.getIntSetting "font.customColor" == 1) := rfl
  constructor
  · rw [hflag]
    exact beq_iff_eq
  · intro hne
    have hflag' : is_custom_color_enabled (update_settings store) = false := by
      rw [hflag]
      exact beq_eq_false_iff_ne.mpr hne
    constructor
    · intro c hc
      have hmem := (setTextColor_mem_textw_iff (update_settings store) env c).mp hc
      rw [hflag'] at hmem
      exact Bool.false_ne_true hmem.2.1
    · intro c hc
      rw [draw_text_exw_eq_textw] at hc
      have hmem := (setTextColor_mem_textw_iff (update_settings store) env c).mp hc
      rw [hflag'] at hmem
      exact Bool.false_ne_true hmem.2.1

theorem custom_color_flag_iff_one_witness :
    GdiEvent.setTextColor 0 ∉ (draw_textw_hook (update_settings c10_store) defaultEnv).2 :=
  ((custom_color_flag_iff_one c10_store defaultEnv).2 (by decide)).1 0

end ExplorerFontEditor
